import Mathlib

/-!
Shallow embedding of the AI desktop-control agent (AzizBahloul/AI_Agent)
for checking the natural-language specification against the code.

The Python sources embedded here are:
  * `config.py` (CONFIG defaults, ACTION_SAFETY_LEVELS, SENSITIVE_KEYWORDS)
  * `components/controller.py` (ActionValidator, ScreenInteraction,
    UserConfirmation, ApplicationManager, Controller)
  * `components/perceiver.py` (OCRProcessor.extract_text,
    UIElementParser.detect_elements / _classify_element,
    Perceiver._calculate_confidence)
  * `advanced_features.py` (SafetyMonitor.validate_action)
  * `real_desktop_agent.py` (RealDesktopAgent.refactor_user_prompt,
    RealDesktopAgent.execute_user_command)

External effects (pyautogui input calls, subprocess launches) are modelled
as an explicit `Effect` trace; external oracles (the Ollama LLM, the user
answering a confirmation dialog, low-level call success) are inputs.
Python floats are modelled as exact rationals; Python `int()` truncation
is `pyInt` below.
-/

namespace Py

/-- Lowercase a string character-wise, as Python `str.lower()` does on the
ASCII strings used by this code base. -/
def lowerStr (s : String) : String := String.mk (s.data.map Char.toLower)

/-- Python `str.strip()`: remove leading and trailing whitespace. -/
def pyStrip (s : String) : String :=
  String.mk (((s.data.dropWhile Char.isWhitespace).reverse.dropWhile Char.isWhitespace).reverse)

/-- Substring test (Python `needle in haystack`). -/
def strContains (hay needle : String) : Bool :=
  (List.range (hay.data.length + 1)).any (fun i => needle.data.isPrefixOf (hay.data.drop i))

/-- Prefix test (Python `str.startswith`). -/
def strStarts (s pre : String) : Bool := pre.data.isPrefixOf s.data

/-- Characterwise worker for `pyReplace`. Every step consumes at least one
character, so running it with fuel equal to the input length is exact; the
fuel argument only makes the recursion structural. -/
def replaceChars (pat rep : List Char) : Nat → List Char → List Char
  | _, [] => []
  | 0, l => l
  | fuel + 1, c :: rest =>
    if pat ≠ [] ∧ pat.isPrefixOf (c :: rest) then
      rep ++ replaceChars pat rep fuel (rest.drop (pat.length - 1))
    else
      c :: replaceChars pat rep fuel rest

/-- Python `str.replace(pat, rep)`: replace every occurrence, left to right. -/
def pyReplace (s pat rep : String) : String :=
  String.mk (replaceChars pat.data rep.data s.data.length s.data)

/-- Characterwise worker for `pySplit`, fueled like `replaceChars`. -/
def splitChars (sep : List Char) : Nat → List Char → List Char → List (List Char)
  | _, acc, [] => [acc.reverse]
  | 0, acc, l => [acc.reverse ++ l]
  | fuel + 1, acc, c :: rest =>
    if sep ≠ [] ∧ sep.isPrefixOf (c :: rest) then
      acc.reverse :: splitChars sep fuel [] (rest.drop (sep.length - 1))
    else
      splitChars sep fuel (c :: acc) rest

/-- Python `str.split(sep)` for a non-empty separator string. -/
def pySplit (s sep : String) : List String :=
  if sep = "" then [s]
  else (splitChars sep.data s.data.length [] s.data).map String.mk

/-- Python `str.split(".", 1)`: split at the first dot only. -/
def splitFirstDot (s : String) : List String :=
  match s.data.findIdx? (fun c => c = Char.ofNat 46) with
  | none => [s]
  | some i => [String.mk (s.data.take i), String.mk (s.data.drop (i + 1))]


/-- Values stored in a Python action dictionary. -/
inductive PyVal
  | str (s : String)
  | int (n : ℤ)
  | bool (b : Bool)
deriving DecidableEq, Repr

/-- Python `repr` of a dictionary value (strings are singly quoted). -/
def pyReprVal : PyVal → String
  | .str s => "\x27" ++ s ++ "\x27"
  | .int n => toString n
  | .bool b => if b then "True" else "False"

/-- A Python dictionary with string keys, in insertion order. -/
def PyDict := List (String × PyVal)
deriving DecidableEq, Repr

/-- Helper for `dictRepr`: renders the comma-separated entries. -/
def dictEntries : List (String × PyVal) → String
  | [] => ""
  | [kv] => "\x27" ++ kv.1 ++ "\x27: " ++ pyReprVal kv.2
  | kv :: rest => "\x27" ++ kv.1 ++ "\x27: " ++ pyReprVal kv.2 ++ ", " ++ dictEntries rest

/-- Python `str(action)` on a dict: `\x7b'k': v, ...\x7d`. -/
def dictRepr (d : PyDict) : String := "\x7b" ++ dictEntries d ++ "\x7d"

/-- Python `key in action` (dictionary key membership). -/
def hasKey (d : PyDict) (k : String) : Bool := (List.lookup k (d : List (String × PyVal))).isSome

/-- Python `action.get(k, default)` when a string is expected. -/
def getStrD (d : PyDict) (k default : String) : String :=
  match List.lookup k (d : List (String × PyVal)) with
  | some (.str s) => s
  | _ => default

/-- Python `action[k]` when an integer is expected (`none` = KeyError). -/
def getIntOpt (d : PyDict) (k : String) : Option ℤ :=
  match List.lookup k (d : List (String × PyVal)) with
  | some (.int n) => some n
  | _ => none

/-- Python `action.get(k, default)` when an integer is expected. -/
def getIntD (d : PyDict) (k : String) (default : ℤ) : ℤ :=
  match List.lookup k (d : List (String × PyVal)) with
  | some (.int n) => n
  | _ => default

/-- Python `action.get(k, False)` when a boolean is expected. -/
def getBoolD (d : PyDict) (k : String) (default : Bool) : Bool :=
  match List.lookup k (d : List (String × PyVal)) with
  | some (.bool b) => b
  | _ => default

end Py

open Py

namespace AgentConfig

/-- `config.py` `SENSITIVE_KEYWORDS` (exactly the 11 entries of the source). -/
def SENSITIVE_KEYWORDS : List String :=
  ["password", "credit card", "delete", "format", "sudo", "admin",
   "system32", "registry", "rm -rf", "del /f", "format c:"]

/-- `config.py` `ACTION_SAFETY_LEVELS`. -/
def ACTION_SAFETY_LEVELS : List (String × Nat) :=
  [("click", 0), ("type", 1), ("key_press", 1), ("scroll", 0), ("drag", 1),
   ("file_operation", 3), ("system_command", 3), ("password_entry", 3)]

/-- The controller-relevant part of `config.py` `ControllerConfig`. -/
structure ControllerConfig where
  safe_mode : Bool
  confirm_sensitive_actions : Bool
deriving DecidableEq, Repr

/-- Defaults from `config.py`: `safe_mode=True`, `confirm_sensitive_actions=True`. -/
def defaultControllerConfig : ControllerConfig := ⟨true, true⟩

end AgentConfig

open AgentConfig

namespace Controller

/-- `controller.py` `ActionResult` (the `datetime` timestamp is an abstract tick). -/
structure ActionResult where
  success : Bool
  action_type : String
  details : PyDict
  timestamp : Nat
  error : Option String := none
  confirmation_required : Bool := false
deriving DecidableEq

/-- `ActionValidator.validate_action`: returns
`(is_valid, error_message, requires_confirmation)`. The keyword scan runs
over `str(action).lower()`, i.e. the lowered repr of the whole dict. -/
def validate_action (cfg : ControllerConfig) (action : PyDict) :
    Bool × Option String × Bool :=
  let action_type := lowerStr (getStrD action "type" "")
  match List.lookup action_type ACTION_SAFETY_LEVELS with
  | none => (false, some ("Unsupported action type: " ++ action_type), false)
  | some safety_level =>
    let requires₀ : Bool := decide (3 ≤ safety_level) || !cfg.safe_mode
    let action_text := lowerStr (dictRepr action)
    let requires : Bool :=
      requires₀ || SENSITIVE_KEYWORDS.any (fun kw => strContains action_text kw)
    if action_type = "click" ∧ ¬(hasKey action "x" ∧ hasKey action "y") then
      (false, some "Click action missing coordinates", false)
    else if action_type = "type" ∧ ¬hasKey action "text" then
      (false, some "Type action missing text", false)
    else if action_type = "key_press" ∧ ¬hasKey action "key" then
      (false, some "Key press action missing key", false)
    else
      (true, none, requires)

/-- The confirmation channel `UserConfirmation.request_confirmation` ends up
using: the tkinter dialog with the user's answer, tkinter missing
(`find_spec` returned None), the console fallback (ImportError branch) with
the raw input line, or an exception while confirming. -/
inductive ConfirmChannel
  | dialog (answer : Bool)
  | noTk
  | console (response : String)
  | failure
deriving DecidableEq, Repr

/-- `UserConfirmation.request_confirmation`. Note the `confirmation_timeout = 30`
field of the Python class is assigned in `__init__` but never read, so no
timeout appears here. -/
def request_confirmation (confirm_sensitive_actions : Bool) (ch : ConfirmChannel) : Bool :=
  if !confirm_sensitive_actions then true
  else
    match ch with
    | .dialog answer => answer
    | .noTk => true
    | .console response =>
      let r := lowerStr (pyStrip response)
      r = "y" ∨ r = "yes"
    | .failure => false

/-- Observable input operations performed by the low-level layer
(pyautogui / subprocess calls). -/
inductive Effect
  | clickAt (x y : ℤ) (button : String) (clicks : ℤ)
  | typeText (text : String)
  | keyPress (key : String)
  | scrollBy (amount : ℤ)
  | dragRel (dx dy : ℤ)
  | moveTo (x y : ℤ)
  | launchApp (name : String)
  | closeApp (name : String)
  | wait
deriving DecidableEq, Repr

/-- Screen geometry: `pyautogui.size()` and the platform display scaling. -/
structure ScreenInfo where
  width : ℤ
  height : ℤ
  scaling : ℚ
deriving DecidableEq

/-- Scaling adjustment `int(v * self.scaling_factor)`: Python `int()`
truncates toward zero, and the exact product `v * scaling` is the rational
`(v * scaling.num) / scaling.den`, so the adjusted coordinate is the
toward-zero integer quotient of those two integers. -/
def adjCoord (si : ScreenInfo) (v : ℤ) : ℤ :=
  Int.tdiv (v * si.scaling.num) (si.scaling.den : ℤ)

/-- `ScreenInteraction._validate_coordinates`: inclusive bounds check. -/
def validate_coordinates (si : ScreenInfo) (x y : ℤ) : Bool :=
  decide (0 ≤ x ∧ x ≤ si.width ∧ 0 ≤ y ∧ y ≤ si.height)

/-- `ScreenInteraction.click`. `opOk` models whether the pyautogui call
raises (the `except` branch returns `False`). Out-of-bounds adjusted
coordinates return `False` with no input performed. -/
def si_click (si : ScreenInfo) (opOk : Bool) (x y : ℤ) (button : String) (clicks : ℤ) :
    Bool × List Effect :=
  let adjX := adjCoord si x
  let adjY := adjCoord si y
  if validate_coordinates si adjX adjY then
    (opOk, [Effect.clickAt adjX adjY button clicks])
  else
    (false, [])

/-- `ScreenInteraction.move_mouse`. -/
def si_move_mouse (si : ScreenInfo) (opOk : Bool) (x y : ℤ) : Bool × List Effect :=
  let adjX := adjCoord si x
  let adjY := adjCoord si y
  if validate_coordinates si adjX adjY then
    (opOk, [Effect.moveTo adjX adjY])
  else
    (false, [])

/-- `ScreenInteraction.drag`: scales all four coordinates and calls
`pyautogui.drag(end_x - start_x, end_y - start_y)` with NO bounds check. -/
def si_drag (si : ScreenInfo) (opOk : Bool) (start_x start_y end_x end_y : ℤ) :
    Bool × List Effect :=
  let sx := adjCoord si start_x
  let sy := adjCoord si start_y
  let ex := adjCoord si end_x
  let ey := adjCoord si end_y
  (opOk, [Effect.dragRel (ex - sx) (ey - sy)])

/-- `ScreenInteraction.type_text`. -/
def si_type_text (opOk : Bool) (text : String) : Bool × List Effect :=
  (opOk, [Effect.typeText text])

/-- `ScreenInteraction.press_key`. -/
def si_press_key (opOk : Bool) (key : String) : Bool × List Effect :=
  (opOk, [Effect.keyPress key])

/-- `ScreenInteraction.scroll`. -/
def si_scroll (opOk : Bool) (direction : String) (amount : ℤ) : Bool × List Effect :=
  let a := if lowerStr direction = "up" then amount else -amount
  (opOk, [Effect.scrollBy a])

/-- Per-call external environment of `Controller.execute_action`: which
confirmation channel answers, and whether the dispatched low-level call
succeeds. -/
structure ExecEnv where
  confirm : ConfirmChannel
  opOk : Bool
deriving DecidableEq, Repr

/-- `ApplicationManager.launch_application` over the `running_apps` names. -/
def launch_application (opOk : Bool) (apps : List String) (app_name : String) :
    Bool × List String × List Effect :=
  if opOk then (true, apps ++ [app_name], [Effect.launchApp app_name])
  else (false, apps, [])

/-- `ApplicationManager.close_application`: only succeeds when the app was
recorded in `running_apps`. -/
def close_application (opOk : Bool) (apps : List String) (app_name : String) :
    Bool × List String × List Effect :=
  if apps.contains app_name then
    if opOk then (true, apps.erase app_name, [Effect.closeApp app_name])
    else (false, apps, [])
  else (false, apps, [])

/-- Build the `ActionResult` created at the end of `_execute_action_internal`. -/
def mkInternalResult (success : Bool) (t : String) (action : PyDict) (ts : Nat) :
    ActionResult :=
  ⟨success, t, action, ts, if success then none else some "Action execution failed", false⟩

/-- `Controller._execute_action_internal`: dispatch on the lowered action
type. A missing required key raises `KeyError`, which the enclosing `try`
converts into a failed result carrying the key name. Returns the result,
the updated `running_apps`, and the performed input effects. -/
def execute_action_internal (si : ScreenInfo) (env : ExecEnv) (apps : List String)
    (action : PyDict) (ts : Nat) : ActionResult × List String × List Effect :=
  let t := lowerStr (getStrD action "type" "")
  let keyErr : String → ActionResult × List String × List Effect := fun k =>
    (⟨false, t, action, ts, some ("\x27" ++ k ++ "\x27"), false⟩, apps, [])
  if t = "click" then
    match getIntOpt action "x", getIntOpt action "y" with
    | some x, some y =>
      let (ok, effs) := si_click si env.opOk x y (getStrD action "button" "left")
        (getIntD action "clicks" 1)
      (mkInternalResult ok t action ts, apps, effs)
    | none, _ => keyErr "x"
    | some _, none => keyErr "y"
  else if t = "type" then
    if hasKey action "text" then
      let (ok, effs) := si_type_text env.opOk (getStrD action "text" "")
      (mkInternalResult ok t action ts, apps, effs)
    else keyErr "text"
  else if t = "key_press" then
    if hasKey action "key" then
      let (ok, effs) := si_press_key env.opOk (getStrD action "key" "")
      (mkInternalResult ok t action ts, apps, effs)
    else keyErr "key"
  else if t = "scroll" then
    let (ok, effs) := si_scroll env.opOk (getStrD action "direction" "down")
      (getIntD action "amount" 3)
    (mkInternalResult ok t action ts, apps, effs)
  else if t = "drag" then
    match getIntOpt action "start_x", getIntOpt action "start_y",
          getIntOpt action "end_x", getIntOpt action "end_y" with
    | some sx, some sy, some ex, some ey =>
      let (ok, effs) := si_drag si env.opOk sx sy ex ey
      (mkInternalResult ok t action ts, apps, effs)
    | none, _, _, _ => keyErr "start_x"
    | some _, none, _, _ => keyErr "start_y"
    | some _, some _, none, _ => keyErr "end_x"
    | some _, some _, some _, none => keyErr "end_y"
  else if t = "move_mouse" then
    match getIntOpt action "x", getIntOpt action "y" with
    | some x, some y =>
      let (ok, effs) := si_move_mouse si env.opOk x y
      (mkInternalResult ok t action ts, apps, effs)
    | none, _ => keyErr "x"
    | some _, none => keyErr "y"
  else if t = "launch_app" then
    if hasKey action "app_name" then
      let (ok, apps2, effs) := launch_application env.opOk apps (getStrD action "app_name" "")
      (mkInternalResult ok t action ts, apps2, effs)
    else keyErr "app_name"
  else if t = "close_app" then
    if hasKey action "app_name" then
      let (ok, apps2, effs) := close_application env.opOk apps (getStrD action "app_name" "")
      (mkInternalResult ok t action ts, apps2, effs)
    else keyErr "app_name"
  else if t = "wait" then
    (mkInternalResult true t action ts, apps, [])
  else
    (⟨false, t, action, ts, some ("Unknown action type: " ++ t), false⟩, apps, [])

/-- The mutable state of a `Controller` instance. -/
structure ControllerState where
  emergency_stop : Bool
  running : Bool
  action_history : List ActionResult
  running_apps : List String
deriving DecidableEq

/-- `Controller.execute_action`: emergency-stop short circuit, validation,
confirmation, dispatch, history append (the early-return paths do not
touch the history). -/
def execute_action (cfg : ControllerConfig) (si : ScreenInfo) (s : ControllerState)
    (env : ExecEnv) (action : PyDict) (ts : Nat) :
    ActionResult × ControllerState × List Effect :=
  if s.emergency_stop then
    (⟨false, getStrD action "type" "unknown", action, ts,
      some "Emergency stop activated", false⟩, s, [])
  else
    match validate_action cfg action with
    | (false, error_msg, _) =>
      (⟨false, getStrD action "type" "unknown", action, ts, error_msg, false⟩, s, [])
    | (true, _, needs_confirmation) =>
      if needs_confirmation ∧
          ¬request_confirmation cfg.confirm_sensitive_actions env.confirm then
        (⟨false, getStrD action "type" "unknown", action, ts,
          some "User denied confirmation", true⟩, s, [])
      else
        let (r, apps2, effs) := execute_action_internal si env s.running_apps action ts
        (r, { s with action_history := s.action_history ++ [r], running_apps := apps2 }, effs)

/-- `Controller.execute_action_sequence`: checks the emergency-stop flag
before each action, stops on a failed action that sets `stop_on_failure`. -/
def execute_action_sequence (cfg : ControllerConfig) (si : ScreenInfo)
    (s : ControllerState) (envs : Nat → ExecEnv) (ts : Nat → Nat) :
    List PyDict → Nat → List ActionResult × ControllerState × List Effect
  | [], _ => ([], s, [])
  | a :: rest, i =>
    if s.emergency_stop then ([], s, [])
    else
      let (r, s2, effs) := execute_action cfg si s (envs i) a (ts i)
      if ¬r.success ∧ getBoolD a "stop_on_failure" false then ([r], s2, effs)
      else
        let (rs, s3, effs2) := execute_action_sequence cfg si s2 envs ts rest (i + 1)
        (r :: rs, s3, effs ++ effs2)

/-- The operations that touch a `Controller`'s mutable state: the background
emergency-key callback, `reset_emergency_stop`, `execute_action`,
`clear_action_history`, `start`, `stop`. -/
inductive CEvent
  | emergencyKey
  | resetStop
  | exec (action : PyDict) (env : ExecEnv) (ts : Nat)
  | clearHistory
  | startC
  | stopC
deriving DecidableEq

/-- One controller operation: next state, performed effects, and the
`ActionResult` if the operation was an `execute_action` call. -/
def controller_step (cfg : ControllerConfig) (si : ScreenInfo) (s : ControllerState) :
    CEvent → ControllerState × List Effect × Option ActionResult
  | .emergencyKey => ({ s with emergency_stop := true }, [], none)
  | .resetStop => ({ s with emergency_stop := false }, [], none)
  | .exec a env ts =>
    let (r, s2, effs) := execute_action cfg si s env a ts
    (s2, effs, some r)
  | .clearHistory => ({ s with action_history := [] }, [], none)
  | .startC => ({ s with running := true }, [], none)
  | .stopC => ({ s with running := false }, [], none)

/-- Run a sequence of controller operations, collecting every
`execute_action` result and every performed effect. -/
def runTrace (cfg : ControllerConfig) (si : ScreenInfo) :
    ControllerState → List CEvent → ControllerState × List ActionResult × List Effect
  | s, [] => (s, [], [])
  | s, e :: rest =>
    let (s2, effs, out) := controller_step cfg si s e
    let (s3, outs, effs2) := runTrace cfg si s2 rest
    (s3, (match out with | some r => r :: outs | none => outs), effs ++ effs2)

end Controller

namespace SafetyMonitor

/-- `advanced_features.py` `SafetyMonitor.warning_keywords`. -/
def warning_keywords : List String :=
  ["delete", "remove", "format", "rm", "del", "sudo", "admin", "password", "credit card"]

/-- `advanced_features.py` `SafetyMonitor.safe_zones`. -/
def safe_zones : List String := ["desktop", "documents", "downloads", "pictures"]

/-- The action dictionary fields `SafetyMonitor.validate_action` reads, each
defaulting to the empty string as `action.get(k, "")` does. -/
structure SMAction where
  type : String := ""
  target : String := ""
  command : String := ""
  operation : String := ""
  path : String := ""
deriving DecidableEq, Repr

/-- `SafetyMonitor._is_safe_location`. -/
def is_safe_location (path : String) : Bool :=
  safe_zones.any (fun z => strContains (lowerStr path) z)

/-- `SafetyMonitor._is_rapid_action` (the source always returns `False`). -/
def is_rapid_action (_ : SMAction) : Bool := false

/-- `SafetyMonitor.validate_action`: returns `(is_safe, message)`. -/
def validate_action (a : SMAction) : Bool × String :=
  let target := lowerStr a.target
  match warning_keywords.find? (fun kw => strContains target kw) with
  | some kw => (false, "Blocked: Contains dangerous keyword \x27" ++ kw ++ "\x27")
  | none =>
    if a.type = "system_command" ∧
        (["rm -rf", "format", "del /f"].any (fun d => strContains (lowerStr a.command) d)) then
      (false, "Blocked: Dangerous system command")
    else if a.type = "file_operation" ∧
        (lowerStr a.operation = "delete" ∨ lowerStr a.operation = "format") ∧
        ¬is_safe_location a.path then
      (false, "Blocked: Unsafe file operation in system area")
    else if is_rapid_action a then
      (false, "Blocked: Too many rapid actions detected")
    else
      (true, "Action approved")

end SafetyMonitor

namespace Perceiver

/-- One word of the Tesseract output consumed by `OCRProcessor.extract_text`:
text with its confidence on the 0–100 scale and its bounding box. -/
structure TessWord where
  text : String
  conf : ℚ
  left : ℤ
  top : ℤ
  width : ℤ
  height : ℤ
deriving DecidableEq

/-- A retained OCR word as built by `extract_text` (confidence rescaled to 0–1). -/
structure OCRWord where
  text : String
  confidence : ℚ
  x : ℤ
  y : ℤ
  width : ℤ
  height : ℤ
deriving DecidableEq

/-- The dictionary `OCRProcessor.extract_text` returns. -/
structure OCRData where
  text : String
  confidence : ℚ
  words : List OCRWord
deriving DecidableEq

/-- Join words with single spaces (Python `" ".join`). -/
def joinSpace : List String → String
  | [] => ""
  | [w] => w
  | w :: rest => w ++ " " ++ joinSpace rest

/-- `OCRProcessor.extract_text` over the per-word Tesseract data: a word is
kept when its stripped text is non-empty and its confidence exceeds
`min_ocr_confidence * 100`; the returned confidence is the mean of the kept
confidences divided by 100 (so it lies in [0,1]). -/
def extract_text (min_ocr_confidence : ℚ) (data : List TessWord) : OCRData :=
  let kept := data.filterMap (fun w =>
    let word := pyStrip w.text
    if word ≠ "" ∧ min_ocr_confidence * 100 < w.conf then
      some (OCRWord.mk word (w.conf / 100) w.left w.top w.width w.height)
    else none)
  let confidences := kept.map (fun w => w.confidence)
  let avg := if confidences = [] then 0 else confidences.sum / confidences.length
  ⟨joinSpace (kept.map (fun w => w.text)), avg, kept⟩

/-- A contour as consumed by `UIElementParser.detect_elements`:
`cv2.contourArea` result plus the `cv2.boundingRect` box (whose width and
height are positive for any non-empty contour). -/
structure Region where
  area : ℚ
  x : ℤ
  y : ℤ
  w : ℤ
  h : ℤ
deriving DecidableEq

/-- A detected UI element dictionary. -/
structure UIElem where
  type : String
  x : ℤ
  y : ℤ
  w : ℤ
  h : ℤ
  cx : ℤ
  cy : ℤ
  area : ℚ
  confidence : ℚ
deriving DecidableEq

/-- `UIElementParser._classify_element`: the nested-if cascade of the source,
first match wins, `none` when nothing matches. -/
def classify_element (area aspect_ratio : ℚ) (width height : ℤ) : Option String :=
  if (1000 < area ∧ area < 50000 ∧ 1/5 < aspect_ratio ∧ aspect_ratio < 5) ∧
      (20 < width ∧ width < 400 ∧ 15 < height ∧ height < 100) then
    some "button"
  else if (500 < area ∧ area < 100000 ∧ 2 < aspect_ratio) ∧ height < 50 then
    some "input"
  else if 400 < area ∧ area < 10000 ∧ 1/2 < aspect_ratio ∧ aspect_ratio < 2 then
    some "icon"
  else if 50000 < area then
    some "panel"
  else
    none

/-- Build the element dictionary for one contour, or `none` when the contour
is discarded (`area < 100`) or unclassified. -/
def mkElement (r : Region) : Option UIElem :=
  if r.area < 100 then none
  else
    (classify_element r.area ((r.w : ℚ) / (r.h : ℚ)) r.w r.h).map (fun t =>
      ⟨t, r.x, r.y, r.w, r.h, r.x + Int.fdiv r.w 2, r.y + Int.fdiv r.h 2,
       r.area, min 1 (r.area / 10000)⟩)

/-- Stable descending insertion by confidence, matching
`elements.sort(key=..., reverse=True)`. -/
def insertByConf (e : UIElem) : List UIElem → List UIElem
  | [] => [e]
  | f :: rest =>
    if f.confidence < e.confidence then e :: f :: rest
    else f :: insertByConf e rest

/-- Sort a list of elements by confidence, descending. -/
def sortByConfDesc (l : List UIElem) : List UIElem := l.foldr insertByConf []

/-- `UIElementParser.detect_elements` over the contour list: discard tiny
areas, classify, sort by confidence descending, keep the top 50. -/
def detect_elements (regions : List Region) : List UIElem :=
  (sortByConfDesc (regions.filterMap mkElement)).take 50

/-- `Perceiver._calculate_confidence`: collects the available sub-scores and
averages them. Note both the OCR confidence (already on the 0–1 scale, see
`extract_text`) and the mean UI-element confidence (elements carry
`min(1, area/10000) ∈ [0,1]`) are divided by 100 again here. -/
def calculate_confidence (ocr_confidence : ℚ) (ui_confidences : List ℚ)
    (vlm_description : String) : ℚ :=
  let scores₁ : List ℚ :=
    if 0 < ocr_confidence then [min (ocr_confidence / 100) 1] else []
  let scores₂ : List ℚ :=
    if ui_confidences ≠ [] then
      scores₁ ++ [min ((ui_confidences.sum / ui_confidences.length) / 100) 1]
    else scores₁
  let scores : List ℚ :=
    if vlm_description ≠ "" ∧ ¬strStarts vlm_description "Vision analysis" then
      scores₂ ++ [4/5]
    else scores₂
  if scores = [] then 0 else scores.sum / scores.length

end Perceiver

namespace Agent

/-- `real_desktop_agent.py` `typo_fixes` in dict insertion order. -/
def typo_fixes : List (String × String) :=
  [("googel", "google"), ("gogle", "google"), ("googl", "google"),
   ("serch", "search"), ("serach", "search"), ("sreach", "search"), ("srch", "search"),
   ("webiste", "website"), ("websit", "website"), ("webste", "website"),
   ("facbook", "facebook"), ("fb", "facebook"), ("faecbook", "facebook"),
   ("youutbe", "youtube"), ("ytube", "youtube"), ("utube", "youtube"),
   ("instgram", "instagram"), ("insta", "instagram"),
   ("tweeter", "twitter"), ("twiter", "twitter")]

/-- Apply every typo replacement in order, as the Python loop does. -/
def apply_typo_fixes (s : String) : String :=
  typo_fixes.foldl (fun acc p => pyReplace acc p.1 p.2) s

/-- `real_desktop_agent.py` `site_matches`. -/
def site_matches : List (String × String) :=
  [("facebook", "facebook.com"), ("twitter", "twitter.com"),
   ("youtube", "youtube.com"), ("instagram", "instagram.com"),
   ("amazon", "amazon.com"), ("reddit", "reddit.com"),
   ("wikipedia", "wikipedia.org"), ("linkedin", "linkedin.com"),
   ("github", "github.com"), ("netflix", "netflix.com")]

/-- The pattern stage of the rule-based fallback (lines 313-360 of
`real_desktop_agent.py`): open-browser, direct-site-visit, search and
result-click patterns, applied to the typo-fixed lowercased command `cmd`.
`extractTerm` stands for `self.extract_search_term`, which may consult the
LLM and is therefore an oracle parameter here; it receives the original
command as in the source. -/
def rule_pattern_steps (extractTerm : String → String) (command cmd : String) :
    List String :=
  let steps₁ : List String :=
    if strContains cmd "open" ∧ (strContains cmd "chrome" ∨ strContains cmd "browser") then
      ["Open Google Chrome", "Wait for Chrome to load (3 seconds)"]
    else []
  let found := site_matches.find? (fun p =>
    strContains cmd ("visit " ++ p.1) ∨ strContains cmd ("go to " ++ p.1))
  let stepsDirect : List String × Bool :=
    match found with
    | none => (steps₁, false)
    | some (site_keyword, site_domain) =>
      let base :=
        if steps₁.contains "Open Google Chrome" ∨ steps₁.contains "Wait for Chrome" then
          steps₁
        else
          steps₁ ++ ["Open Google Chrome", "Wait for Chrome to load (3 seconds)"]
      (base ++
        ["Focus on the address bar (press Ctrl+L)",
         "Type \x27" ++ site_domain ++ "\x27 in the address bar",
         "Press Enter to navigate",
         "Wait for " ++ site_keyword ++ " to load (3 seconds)"], true)
  let steps₂ := stepsDirect.1
  let direct_site_visit := stepsDirect.2
  let steps₃ : List String :=
    if ¬direct_site_visit ∧
        (strContains cmd "search" ∨ strContains cmd "find" ∨ strContains cmd "look up") then
      let search_term := extractTerm command
      let base :=
        if steps₂.contains "Focus on the address bar" ∨ steps₂.contains "press Ctrl+L" then
          steps₂
        else
          steps₂ ++ ["Focus on the address bar (press Ctrl+L)"]
      base ++
        ["Type \x27" ++ search_term ++ "\x27 in the search bar",
         "Press Enter to search",
         "Wait for search results to load (3 seconds)"]
    else steps₂
  let steps₄ : List String :=
    if ["enter", "visit", "go to", "click", "access", "open website", "first result"].any
        (fun t => strContains cmd t) then
      match ["facebook", "twitter", "youtube", "instagram", "amazon", "reddit", "github"].find?
          (fun site => strContains cmd site) with
      | some site =>
        steps₃ ++ ["Look for and click on the " ++ site ++ " result",
                   "Wait for " ++ site ++ " to load (3 seconds)"]
      | none =>
        if ["first", "top", "result", "website"].any (fun t => strContains cmd t) then
          steps₃ ++ ["Click on the first search result",
                     "Wait for the page to load (3 seconds)"]
        else steps₃
    else steps₃
  steps₄

/-- The rule-based fallback of `RealDesktopAgent.refactor_user_prompt`
(lines 294-372): typo-fix and lowercase the command, apply the rule
patterns, and if none matched, split on a conjunction or return the whole
command as a single step. -/
def rule_based_fallback (extractTerm : String → String) (command : String) :
    List String :=
  let cmd := apply_typo_fixes (lowerStr command)
  let steps := rule_pattern_steps extractTerm command cmd
  if steps = [] then
    if strContains cmd " and " then
      ((pySplit cmd " and ").map pyStrip).filter (fun c => c ≠ "")
    else if strContains cmd " then " then
      ((pySplit cmd " then ").map pyStrip).filter (fun c => c ≠ "")
    else [command]
  else steps

/-- One LLM call outcome as seen by `refactor_user_prompt`: the
`response.success` flag, the text content, and the
`used_simplified_prompt` metadata flag. -/
structure OracleResponse where
  success : Bool
  content : String
  usedSimplifiedPrompt : Bool
deriving DecidableEq, Repr

/-- Numbered-list extraction applied to an LLM response (both attempts use
this identical loop): strip each line, drop blanks, take the text after the
first dot of digit-led lines, drop `#`/`-`/`*` lines, keep the rest. -/
def process_response_lines (content : String) : List String :=
  (pySplit content "\n").foldl (fun acc line =>
    let stripped := pyStrip line
    if stripped = "" then acc
    else
      match stripped.data with
      | [] => acc
      | c :: _ =>
        if c.isDigit then
          match splitFirstDot stripped with
          | [_, after] => acc ++ [pyStrip after]
          | _ => acc
        else if strStarts stripped "#" ∨ strStarts stripped "-" ∨ strStarts stripped "*" then
          acc
        else acc ++ [stripped]) []

/-- The acceptance test `lines and len(set(lines)) >= 2`. -/
def good_lines (lines : List String) : Bool :=
  lines ≠ [] ∧ 2 ≤ lines.dedup.length

/-- `RealDesktopAgent.refactor_user_prompt`. `primary`/`secondary` are the
two possible LLM calls (`none` models an exception reaching the outer
`except`); the rule-based fallback runs when neither attempt yields at
least two distinct non-empty steps. The secondary attempt only happens for
complex commands whose primary response did not come from a simplified
prompt. -/
def refactor_user_prompt (primary secondary : Option OracleResponse)
    (extractTerm : String → String) (command : String) : List String :=
  let is_complex : Bool := decide (100 < command.data.length) ∨ strContains command "," ∨
    strContains command " and " ∨ strContains command " then "
  match primary with
  | none => rule_based_fallback extractTerm command
  | some resp =>
    let using_reduced_prompt : Bool :=
      ¬is_complex ∨ (resp.success ∧ resp.usedSimplifiedPrompt)
    let firstLines : Option (List String) :=
      if resp.success ∧ good_lines (process_response_lines resp.content) then
        some (process_response_lines resp.content)
      else none
    match firstLines with
    | some lines => lines
    | none =>
      if ¬using_reduced_prompt then
        match secondary with
        | none => rule_based_fallback extractTerm command
        | some r2 =>
          if r2.success ∧ good_lines (process_response_lines r2.content) then
            process_response_lines r2.content
          else rule_based_fallback extractTerm command
      else rule_based_fallback extractTerm command

/-- One step of `execute_user_command` retries
`handle_complex_open_command` while `not success and retry_count <= max_retries`:
the step succeeds iff some attempt among `0..max_retries` succeeds.
`attempts` gives the outcome of the prospective attempt at each retry count. -/
def stepSucceeds (max_retries : Nat) (attempts : Nat → Bool) : Bool :=
  (List.range (max_retries + 1)).any attempts

/-- `idx <= 2 or idx >= total_steps - 1`: the criticality test of
`execute_user_command` (1-based `idx`). -/
def isCriticalIdx (idx total : Nat) : Bool := idx ≤ 2 ∨ total ≤ idx + 1

/-- Observable outcome of one `execute_user_command` session: the
`successful_steps` and `failed_steps` counters, whether the critical-step
abort fired, and the boolean the function returns. -/
structure SessionResult where
  completed : Nat
  failed : Nat
  aborted : Bool
  success : Bool
deriving DecidableEq, Repr

/-- The step loop of `execute_user_command` (lines 412-512): on exhausted
retries the step is marked failed, and a critical index aborts the session
returning `False`; after the loop, full completion returns `True` and a
partial run returns `completion_rate >= 0.75`. -/
def runPlan (max_retries total : Nat) : List (Nat → Bool) → Nat → Nat → Nat → SessionResult
  | [], _, succ, fail =>
    if succ = total then ⟨succ, fail, false, true⟩
    else ⟨succ, fail, false, decide (3 * total ≤ 4 * succ)⟩
  | step :: rest, idx, succ, fail =>
    if stepSucceeds max_retries step then
      runPlan max_retries total rest (idx + 1) (succ + 1) fail
    else if isCriticalIdx idx total then
      ⟨succ, fail + 1, true, false⟩
    else
      runPlan max_retries total rest (idx + 1) succ (fail + 1)

/-- `RealDesktopAgent.execute_user_command` on an already-decomposed plan,
with `max_retries = 2` as in the source; an empty plan returns `False`
immediately. Each plan entry is the attempt-outcome oracle of one step. -/
def execute_user_command (steps : List (Nat → Bool)) : SessionResult :=
  match steps with
  | [] => ⟨0, 0, false, false⟩
  | _ :: _ => runPlan 2 steps.length steps 1 0 0

end Agent

namespace SpecClaims

/-!
Definitions transcribed from the specification / claim wording, to be
compared with the definitions embedded from the source above.
-/

/-- The sensitive-keyword list as the claim states it (it additionally lists
`remove`, `rm` and `del` as standalone keywords). -/
def claim_sensitive_keywords : List String :=
  ["delete", "remove", "format", "rm", "del", "sudo", "admin", "password",
   "credit card", "system32", "registry", "rm -rf", "del /f", "format c:"]

/-- `requires_confirmation` as claim C2 states it: safety level at least 3,
or global safe mode disabled, or a case-insensitive substring match of the
claimed keyword list against the action text. -/
def requires_confirmation_claim (cfg : ControllerConfig) (action : PyDict) : Bool :=
  let lvl := (List.lookup (lowerStr (getStrD action "type" "")) ACTION_SAFETY_LEVELS).getD 0
  decide (3 ≤ lvl) ∨ ¬cfg.safe_mode ∨
    claim_sensitive_keywords.any (fun kw => strContains (lowerStr (dictRepr action)) kw)

/-- The confirmation-gate outcome as claim C4 states it: auto-approval when
the flag is off, the user decision otherwise, and `Denied` when no
confirmation channel is available (and on the claimed timeout, which has no
counterpart in the code). -/
def request_confirmation_claim (confirm_sensitive_actions : Bool)
    (ch : Controller.ConfirmChannel) : Bool :=
  if !confirm_sensitive_actions then true
  else
    match ch with
    | .dialog answer => answer
    | .noTk => false
    | .console response =>
      let r := lowerStr (pyStrip response)
      r = "y" ∨ r = "yes"
    | .failure => false

/-- The overall-confidence formula as claim C6 states it: the arithmetic
mean of exactly the computed sub-scores — the OCR confidence itself, the
mean UI-element confidence itself, and a fixed 0.8 for an obtained scene
description — with absent sub-scores excluded. -/
def overall_confidence_claim (ocr_confidence : ℚ) (ui_confidences : List ℚ)
    (vlm_description : String) : ℚ :=
  let subs : List ℚ :=
    (if 0 < ocr_confidence then [ocr_confidence] else []) ++
    (if ui_confidences ≠ [] then [ui_confidences.sum / ui_confidences.length] else []) ++
    (if vlm_description ≠ "" ∧ ¬strStarts vlm_description "Vision analysis" then [4/5] else [])
  if subs = [] then 0 else subs.sum / subs.length

/-- The sub-score list `Perceiver._calculate_confidence` actually averages:
restated independently of `calculate_confidence` for the amended claim C6. -/
def code_sub_scores (ocr_confidence : ℚ) (ui_confidences : List ℚ)
    (vlm_description : String) : List ℚ :=
  (if 0 < ocr_confidence then [min (ocr_confidence / 100) 1] else []) ++
  (if ui_confidences ≠ [] then
    [min ((ui_confidences.sum / ui_confidences.length) / 100) 1] else []) ++
  (if vlm_description ≠ "" ∧ ¬strStarts vlm_description "Vision analysis" then [4/5] else [])

/-- The UI-element classification cascade exactly as claim C8 lists it
(flat first-match-wins conditions). -/
def classify_element_claim (area aspect_ratio : ℚ) (width height : ℤ) : Option String :=
  if 1000 < area ∧ area < 50000 ∧ 1/5 < aspect_ratio ∧ aspect_ratio < 5 ∧
      20 < width ∧ width < 400 ∧ 15 < height ∧ height < 100 then
    some "button"
  else if 500 < area ∧ area < 100000 ∧ 2 < aspect_ratio ∧ height < 50 then
    some "input"
  else if 400 < area ∧ area < 10000 ∧ 1/2 < aspect_ratio ∧ aspect_ratio < 2 then
    some "icon"
  else if 50000 < area then
    some "panel"
  else
    none

/-- Descending ranking by confidence, as claim C8 orders elements. -/
def confGe (a b : Perceiver.UIElem) : Prop := b.confidence ≤ a.confidence

end SpecClaims

open Controller Perceiver Agent SpecClaims

/-!
Helper lemmas shared by the claim theorems below.
-/

/-- A list of rationals bounded by 1 sums to at most its length. -/
theorem list_sum_le_length (l : List ℚ) (h1 : ∀ x ∈ l, x ≤ 1) :
    l.sum ≤ (l.length : ℚ) := by
  induction l with
  | nil => simp
  | cons a t ih =>
    have ha : a ≤ 1 := h1 a (by simp)
    have ht : t.sum ≤ (t.length : ℚ) := ih (fun x hx => h1 x (by simp [hx]))
    simp only [List.sum_cons, List.length_cons]
    push_cast
    linarith

/-- The mean of a non-empty list of rationals in `[0,1]` lies in `[0,1]`. -/
theorem list_mean_mem_unit (l : List ℚ) (h : ∀ x ∈ l, 0 ≤ x ∧ x ≤ 1) (hne : l ≠ []) :
    0 ≤ l.sum / (l.length : ℚ) ∧ l.sum / (l.length : ℚ) ≤ 1 := by
  have hlen : 0 < (l.length : ℚ) := by
    have := List.length_pos.mpr hne
    exact_mod_cast this
  have hsum0 : 0 ≤ l.sum := List.sum_nonneg (fun x hx => (h x hx).1)
  have hsum1 : l.sum ≤ (l.length : ℚ) := list_sum_le_length l (fun x hx => (h x hx).2)
  constructor
  · exact div_nonneg hsum0 (le_of_lt hlen)
  · rw [div_le_one hlen]
    exact hsum1

/-- Membership through `insertByConf`. -/
theorem mem_insertByConf {e x : UIElem} {l : List UIElem} :
    x ∈ insertByConf e l ↔ x = e ∨ x ∈ l := by
  induction l with
  | nil => simp [insertByConf]
  | cons f rest ih =>
    by_cases h : f.confidence < e.confidence
    · rw [insertByConf, if_pos h]
      simp only [List.mem_cons]
    · rw [insertByConf, if_neg h]
      simp only [List.mem_cons, ih]
      tauto

/-- `insertByConf` preserves descending sortedness by confidence. -/
theorem pairwise_insertByConf {e : UIElem} {l : List UIElem}
    (hl : l.Pairwise confGe) : (insertByConf e l).Pairwise confGe := by
  induction l with
  | nil => simp [insertByConf, List.pairwise_singleton]
  | cons f rest ih =>
    rcases List.pairwise_cons.mp hl with ⟨hf, hrest⟩
    by_cases h : f.confidence < e.confidence
    · rw [insertByConf, if_pos h]
      refine List.pairwise_cons.mpr ⟨?_, hl⟩
      intro b hb
      rcases List.mem_cons.mp hb with rfl | hb'
      · exact le_of_lt h
      · exact le_trans (hf b hb') (le_of_lt h)
    · rw [insertByConf, if_neg h]
      refine List.pairwise_cons.mpr ⟨?_, ih hrest⟩
      intro b hb
      rcases mem_insertByConf.mp hb with rfl | hb'
      · exact le_of_not_lt h
      · exact hf b hb'

/-- The insertion sort used by `detect_elements` is sorted descending. -/
theorem pairwise_sortByConfDesc (l : List UIElem) :
    (sortByConfDesc l).Pairwise confGe := by
  induction l with
  | nil => simp [sortByConfDesc]
  | cons e rest ih => exact pairwise_insertByConf ih

/-- The insertion sort used by `detect_elements` preserves membership. -/
theorem mem_of_mem_sortByConfDesc {x : UIElem} {l : List UIElem}
    (h : x ∈ sortByConfDesc l) : x ∈ l := by
  induction l with
  | nil => exact absurd h (by simp [sortByConfDesc])
  | cons e rest ih =>
    rcases mem_insertByConf.mp h with rfl | h'
    · simp
    · exact List.mem_cons_of_mem _ (ih h')

/-- The acceptance test of the oracle path only accepts non-empty step lists. -/
theorem good_lines_ne_nil {l : List String} (h : good_lines l = true) : l ≠ [] := by
  unfold good_lines at h
  simp only [decide_eq_true_eq, Bool.decide_and, Bool.and_eq_true] at h
  exact h.1

/-!
Claim theorems.
-/

/-- Claim C1 (code_bug evaluation): in a 4-step plan whose step 3 fails on
every attempt while all other steps succeed, `execute_user_command` aborts
(because `idx >= total_steps - 1` also makes position `n-1` critical) with
`completed=2, failed=1` and returns `False` — not the claimed and
comment-documented `completed=3, failed=1, completion_rate=0.75`,
`PartiallyCompleted`/success outcome. -/
theorem C1_step3_of_4_aborts :
    execute_user_command [fun _ => true, fun _ => true, fun _ => false, fun _ => true] =
      ⟨2, 1, true, false⟩ ∧
    (⟨2, 1, true, false⟩ : SessionResult) ≠ ⟨3, 1, false, true⟩ := by
  exact ⟨rfl, by decide⟩

/-- Claim C4 (counterexample): with confirm-sensitive-actions on and no
confirmation channel available (tkinter missing), the gate APPROVES the
action (`return True` after the "defaulting to allow action" warning),
whereas the claim requires the fail-safe outcome `Denied`. -/
theorem C4_counterexample :
    Controller.request_confirmation true ConfirmChannel.noTk = true ∧
    SpecClaims.request_confirmation_claim true ConfirmChannel.noTk = false := by
  exact ⟨rfl, rfl⟩

/-- Claim C4 (amended): the gate auto-approves every request when the
confirm-sensitive-actions flag is off; otherwise the dialog answer decides,
a missing dialog channel auto-approves (allow-by-default, not `Denied`),
the console channel approves exactly on a `y`/`yes` reply, and an exception
while confirming denies. The 30-second timeout field of the source is never
read, so no timeout outcome exists. -/
theorem C4_amended :
    (∀ ch, Controller.request_confirmation false ch = true) ∧
    Controller.request_confirmation true ConfirmChannel.noTk = true ∧
    (∀ a, Controller.request_confirmation true (ConfirmChannel.dialog a) = a) ∧
    (∀ r, Controller.request_confirmation true (ConfirmChannel.console r) =
      decide (lowerStr (pyStrip r) = "y" ∨ lowerStr (pyStrip r) = "yes")) ∧
    Controller.request_confirmation true ConfirmChannel.failure = false := by
  exact ⟨fun ch => rfl, rfl, fun a => rfl, fun r => rfl, rfl⟩

/-- Claim C4 witness: with the flag off, the no-dialog channel is
auto-approved. -/
theorem C4_witness :
    Controller.request_confirmation false ConfirmChannel.noTk = true :=
  C4_amended.1 ConfirmChannel.noTk

/-- Claim C5: every `file_operation` action whose operation is `delete` or
`format` and whose path does not lexically contain a safe-zone directory
name is rejected by `SafetyMonitor.validate_action` (verdict `False`), so
it is blocked before any confirmation or execution. -/
theorem C5_unsafe_file_operation_blocked (a : SafetyMonitor.SMAction)
    (htype : a.type = "file_operation")
    (hop : lowerStr a.operation = "delete" ∨ lowerStr a.operation = "format")
    (hloc : SafetyMonitor.is_safe_location a.path = false) :
    (SafetyMonitor.validate_action a).1 = false := by
  unfold SafetyMonitor.validate_action
  dsimp only
  cases hfind : SafetyMonitor.warning_keywords.find?
      (fun kw => strContains (lowerStr a.target) kw) with
  | some kw => rfl
  | none =>
    dsimp only
    have h1 : ¬(a.type = "system_command" ∧
        (["rm -rf", "format", "del /f"].any
          (fun d => strContains (lowerStr a.command) d)) = true) := by
      rintro ⟨h, -⟩
      rw [htype] at h
      exact absurd h (by decide)
    have h2 : a.type = "file_operation" ∧
        (lowerStr a.operation = "delete" ∨ lowerStr a.operation = "format") ∧
        ¬SafetyMonitor.is_safe_location a.path = true := by
      exact ⟨htype, hop, by simp [hloc]⟩
    rw [if_neg h1, if_pos h2]

/-- Claim C5 witness: the concrete action
`(type: file_operation, operation: delete, path: /etc/passwd)` is blocked. -/
theorem C5_witness :
    (SafetyMonitor.validate_action
      { type := "file_operation", operation := "delete", path := "/etc/passwd" }).1 = false :=
  C5_unsafe_file_operation_blocked _ rfl (Or.inl rfl) (by decide)

/-- Claim C7 (counterexample): `ScreenInteraction.drag` performs no bounds
check at all — a drag whose scaled target (5000,5000) lies far outside a
1920x1080 screen is executed (the relative `pyautogui.drag` call happens)
and reports success, instead of being rejected without input. -/
theorem C7_counterexample :
    si_drag ⟨1920, 1080, 1⟩ true 0 0 5000 5000 = (true, [Effect.dragRel 5000 5000]) ∧
    validate_coordinates ⟨1920, 1080, 1⟩ (adjCoord ⟨1920, 1080, 1⟩ 5000)
      (adjCoord ⟨1920, 1080, 1⟩ 5000) = false := by
  exact ⟨by decide, by decide⟩

/-- Claim C7 (amended): `click` and `move_mouse` reject scaling-adjusted
out-of-bounds targets — they return failure and perform no input — and any
input they do perform is at exactly the unclamped scaled coordinates, which
are then within bounds; `drag`, however, performs no bounds check (see the
counterexample). -/
theorem C7_amended (si : ScreenInfo) (opOk : Bool) (x y : ℤ) (button : String)
    (clicks : ℤ) :
    (validate_coordinates si (adjCoord si x) (adjCoord si y) = false →
      si_click si opOk x y button clicks = (false, []) ∧
      si_move_mouse si opOk x y = (false, [])) ∧
    (∀ e ∈ (si_click si opOk x y button clicks).2,
      e = Effect.clickAt (adjCoord si x) (adjCoord si y) button clicks ∧
      validate_coordinates si (adjCoord si x) (adjCoord si y) = true) ∧
    (∀ e ∈ (si_move_mouse si opOk x y).2,
      e = Effect.moveTo (adjCoord si x) (adjCoord si y) ∧
      validate_coordinates si (adjCoord si x) (adjCoord si y) = true) := by
  unfold si_click si_move_mouse
  dsimp only
  cases hv : validate_coordinates si (adjCoord si x) (adjCoord si y) with
  | false => simp [hv]
  | true => simp [hv]

/-- Claim C7 witness: a click at (5000,5000) on a 1920x1080 screen with
scaling 1 is rejected with no input performed. -/
theorem C7_witness :
    si_click ⟨1920, 1080, 1⟩ true 5000 5000 "left" 1 = (false, []) :=
  ((C7_amended ⟨1920, 1080, 1⟩ true 5000 5000 "left" 1).1 (by decide)).1

/-- Claim C10: the dispatch of `_execute_action_internal` has working
branches for `move_mouse`, `launch_app`, `close_app` and `wait` (final
conjuncts), but `ACTION_SAFETY_LEVELS` omits these four types, so every
`execute_action` call with such a type fails validation: it returns
`success = false`, changes no state, performs no input, and (whenever the
emergency stop is clear) reports the unsupported-action-type error. -/
theorem C10_unsupported_but_dispatchable (cfg : ControllerConfig) (si : ScreenInfo)
    (s : ControllerState) (env : ExecEnv) (action : PyDict)
    (hmem : lowerStr (getStrD action "type" "") ∈
      ["move_mouse", "launch_app", "close_app", "wait"]) :
    (∀ ts, (execute_action cfg si s env action ts).1.success = false ∧
      (execute_action cfg si s env action ts).2.1 = s ∧
      (execute_action cfg si s env action ts).2.2 = [] ∧
      (s.emergency_stop = false →
        (execute_action cfg si s env action ts).1.error =
          some ("Unsupported action type: " ++ lowerStr (getStrD action "type" "")))) ∧
    (execute_action_internal ⟨1920, 1080, 1⟩ ⟨ConfirmChannel.dialog true, true⟩ []
      [("type", PyVal.str "wait")] 0).1.success = true ∧
    (execute_action_internal ⟨1920, 1080, 1⟩ ⟨ConfirmChannel.dialog true, true⟩ []
      [("type", PyVal.str "move_mouse"), ("x", PyVal.int 100), ("y", PyVal.int 100)]
      0).2.2 = [Effect.moveTo 100 100] ∧
    (execute_action_internal ⟨1920, 1080, 1⟩ ⟨ConfirmChannel.dialog true, true⟩ []
      [("type", PyVal.str "launch_app"), ("app_name", PyVal.str "gedit")] 0).2.2 =
      [Effect.launchApp "gedit"] ∧
    (execute_action_internal ⟨1920, 1080, 1⟩ ⟨ConfirmChannel.dialog true, true⟩ ["gedit"]
      [("type", PyVal.str "close_app"), ("app_name", PyVal.str "gedit")] 0).2.2 =
      [Effect.closeApp "gedit"] := by
  have hnone : List.lookup (lowerStr (getStrD action "type" "")) ACTION_SAFETY_LEVELS
      = none := by
    simp only [List.mem_cons, List.mem_singleton, List.not_mem_nil, or_false] at hmem
    rcases hmem with h | h | h | h <;> rw [h] <;> rfl
  have hval : Controller.validate_action cfg action =
      (false, some ("Unsupported action type: " ++ lowerStr (getStrD action "type" "")),
        false) := by
    unfold Controller.validate_action
    dsimp only
    rw [hnone]
  refine ⟨fun ts => ?_, by decide, by decide, by decide, by decide⟩
  unfold execute_action
  cases hstop : s.emergency_stop with
  | true => simp [hstop]
  | false => simp [hstop, hval]

/-- Claim C10 witness: a concrete `move_mouse` action through
`execute_action` fails. -/
theorem C10_witness :
    (execute_action defaultControllerConfig ⟨1920, 1080, 1⟩ ⟨false, true, [], []⟩
      ⟨ConfirmChannel.dialog true, true⟩
      [("type", PyVal.str "move_mouse"), ("x", PyVal.int 5), ("y", PyVal.int 5)]
      17).1.success = false :=
  ((C10_unsupported_but_dispatchable defaultControllerConfig ⟨1920, 1080, 1⟩
    ⟨false, true, [], []⟩ ⟨ConfirmChannel.dialog true, true⟩
    [("type", PyVal.str "move_mouse"), ("x", PyVal.int 5), ("y", PyVal.int 5)]
    (by decide)).1 17).1

/-- Claim C2 (counterexample): the claim lists `remove` (and `rm`, `del`) as
sensitive keywords, but `config.py` does not: a plain click action whose
target text contains `remove` gets `requires_confirmation = false` from the
validator in default safe mode, while the claimed predicate demands `true`. -/
theorem C2_counterexample :
    (Controller.validate_action defaultControllerConfig
      [("type", PyVal.str "click"), ("x", PyVal.int 100), ("y", PyVal.int 200),
       ("target", PyVal.str "remove the icon")]).2.2 = false ∧
    requires_confirmation_claim defaultControllerConfig
      [("type", PyVal.str "click"), ("x", PyVal.int 100), ("y", PyVal.int 200),
       ("target", PyVal.str "remove the icon")] = true := by
  exact ⟨by decide, by decide⟩

/-- Claim C2 (amended): for every action whose type the validator supports
and whose required parameters are present, `requires_confirmation` is true
iff the type's safety level is at least 3, or global safe mode is disabled,
or `str(action).lower()` contains one of the 11 keywords actually configured
in `config.py` (which has no standalone `remove`, `rm`, or `del`). -/
theorem C2_amended (cfg : ControllerConfig) (action : PyDict) (lvl : Nat)
    (hsupp : List.lookup (lowerStr (getStrD action "type" "")) ACTION_SAFETY_LEVELS =
      some lvl)
    (hclick : ¬(lowerStr (getStrD action "type" "") = "click" ∧
      ¬(hasKey action "x" = true ∧ hasKey action "y" = true)))
    (htext : ¬(lowerStr (getStrD action "type" "") = "type" ∧
      ¬hasKey action "text" = true))
    (hkey : ¬(lowerStr (getStrD action "type" "") = "key_press" ∧
      ¬hasKey action "key" = true)) :
    (Controller.validate_action cfg action).2.2 = true ↔
      (3 ≤ lvl ∨ cfg.safe_mode = false ∨
        ∃ kw ∈ SENSITIVE_KEYWORDS,
          strContains (lowerStr (dictRepr action)) kw = true) := by
  unfold Controller.validate_action
  dsimp only
  rw [hsupp]
  dsimp only
  rw [if_neg hclick, if_neg htext, if_neg hkey]
  simp only [Bool.or_eq_true, decide_eq_true_eq, Bool.not_eq_true',
    List.any_eq_true]
  tauto

/-- With the emergency-stop flag set, `execute_action` short-circuits:
failed result, unchanged state, no input performed. -/
theorem execute_action_stopped (cfg : ControllerConfig) (si : ScreenInfo)
    {s : ControllerState} (env : ExecEnv) (action : PyDict) (ts : Nat)
    (hs : s.emergency_stop = true) :
    execute_action cfg si s env action ts =
      (⟨false, getStrD action "type" "unknown", action, ts,
        some "Emergency stop activated", false⟩, s, []) := by
  unfold execute_action
  rw [if_pos hs]

/-- With the emergency-stop flag set, `execute_action_sequence` attempts
nothing. -/
theorem execute_action_sequence_stopped (cfg : ControllerConfig) (si : ScreenInfo)
    {s : ControllerState} (envs : Nat → ExecEnv) (ts : Nat → Nat)
    (actions : List PyDict) (i : Nat) (hs : s.emergency_stop = true) :
    execute_action_sequence cfg si s envs ts actions i = ([], s, []) := by
  cases actions with
  | nil => rfl
  | cons a rest =>
    unfold execute_action_sequence
    rw [if_pos hs]

/-- Any controller operation other than the explicit reset keeps the
emergency-stop flag set, performs no input, and fails any attempted
action. -/
theorem controller_step_stopped (cfg : ControllerConfig) (si : ScreenInfo)
    {s : ControllerState} {e : CEvent} (hs : s.emergency_stop = true)
    (he : e ≠ CEvent.resetStop) :
    (controller_step cfg si s e).1.emergency_stop = true ∧
    (controller_step cfg si s e).2.1 = [] ∧
    (∀ r, (controller_step cfg si s e).2.2 = some r → r.success = false) := by
  cases e with
  | emergencyKey => exact ⟨rfl, rfl, fun r h => by simp [controller_step] at h⟩
  | resetStop => exact absurd rfl he
  | exec a env ts =>
    have hx := execute_action_stopped cfg si env a ts hs
    refine ⟨?_, ?_, ?_⟩
    · simp only [controller_step, hx]
      exact hs
    · simp only [controller_step, hx]
    · intro r h
      simp only [controller_step, hx, Option.some.injEq] at h
      rw [← h]
  | clearHistory => exact ⟨hs, rfl, fun r h => by simp [controller_step] at h⟩
  | startC => exact ⟨hs, rfl, fun r h => by simp [controller_step] at h⟩
  | stopC => exact ⟨hs, rfl, fun r h => by simp [controller_step] at h⟩

/-- Once the flag is set, a whole reset-free trace of controller operations
keeps it set, performs no input, and fails every attempted action. -/
theorem runTrace_stopped (cfg : ControllerConfig) (si : ScreenInfo) :
    ∀ (tr : List CEvent) (s : ControllerState), s.emergency_stop = true →
      CEvent.resetStop ∉ tr →
      (runTrace cfg si s tr).1.emergency_stop = true ∧
      (runTrace cfg si s tr).2.2 = [] ∧
      ∀ r ∈ (runTrace cfg si s tr).2.1, r.success = false := by
  intro tr
  induction tr with
  | nil =>
    intro s hs _
    exact ⟨hs, rfl, fun r h => absurd h (List.not_mem_nil r)⟩
  | cons e rest ih =>
    intro s hs hr
    have he : e ≠ CEvent.resetStop := by
      intro h
      exact hr (h ▸ List.mem_cons_self e rest)
    have hr' : CEvent.resetStop ∉ rest := fun h => hr (List.mem_cons_of_mem e h)
    obtain ⟨h1, h2, h3⟩ := controller_step_stopped cfg si hs he
    rcases hstep : controller_step cfg si s e with ⟨s2, effs, out⟩
    rw [hstep] at h1 h2 h3
    dsimp only at h1 h2 h3
    obtain ⟨g1, g2, g3⟩ := ih s2 h1 hr'
    rcases hrun : runTrace cfg si s2 rest with ⟨s3, outs, effs2⟩
    rw [hrun] at g1 g2 g3
    dsimp only at g1 g2 g3
    simp only [runTrace, hstep, hrun]
    refine ⟨g1, ?_, ?_⟩
    · rw [h2, g2]
      rfl
    · intro r hmem
      cases out with
      | none => exact g3 r hmem
      | some r0 =>
        rcases List.mem_cons.mp hmem with rfl | hmem'
        · exact h3 r rfl
        · exact g3 r hmem'

/-- Claim C3: once the emergency-stop flag is set, every subsequent
`execute_action` over any reset-free sequence of controller operations
returns `success = false` and performs no input operation, an in-progress
action sequence attempts no further actions, and the flag stays set — only
the explicit `reset_emergency_stop` operation clears it. -/
theorem C3_emergency_stop_latch (cfg : ControllerConfig) (si : ScreenInfo)
    (s : ControllerState) (tr : List CEvent)
    (hs : s.emergency_stop = true) (hr : CEvent.resetStop ∉ tr) :
    ((runTrace cfg si s tr).1.emergency_stop = true ∧
     (runTrace cfg si s tr).2.2 = [] ∧
     (∀ r ∈ (runTrace cfg si s tr).2.1, r.success = false)) ∧
    (∀ envs ts actions i,
      execute_action_sequence cfg si s envs ts actions i = ([], s, [])) := by
  refine ⟨runTrace_stopped cfg si tr s hs hr, ?_⟩
  intro envs ts actions i
  exact execute_action_sequence_stopped cfg si envs ts actions i hs

/-- Claim C3 witness: from a stopped controller, an execute plus a further
emergency-key press leave the flag set, perform nothing, and fail the
attempted click. -/
theorem C3_witness :
    ((runTrace defaultControllerConfig ⟨1920, 1080, 1⟩ ⟨true, true, [], []⟩
      [CEvent.exec [("type", PyVal.str "click"), ("x", PyVal.int 5), ("y", PyVal.int 5)]
        ⟨ConfirmChannel.dialog true, true⟩ 3, CEvent.emergencyKey]).1.emergency_stop = true ∧
     (runTrace defaultControllerConfig ⟨1920, 1080, 1⟩ ⟨true, true, [], []⟩
      [CEvent.exec [("type", PyVal.str "click"), ("x", PyVal.int 5), ("y", PyVal.int 5)]
        ⟨ConfirmChannel.dialog true, true⟩ 3, CEvent.emergencyKey]).2.2 = [] ∧
     (∀ r ∈ (runTrace defaultControllerConfig ⟨1920, 1080, 1⟩ ⟨true, true, [], []⟩
      [CEvent.exec [("type", PyVal.str "click"), ("x", PyVal.int 5), ("y", PyVal.int 5)]
        ⟨ConfirmChannel.dialog true, true⟩ 3, CEvent.emergencyKey]).2.1,
        r.success = false)) ∧
    (∀ envs ts actions i,
      execute_action_sequence defaultControllerConfig ⟨1920, 1080, 1⟩
        ⟨true, true, [], []⟩ envs ts actions i = ([], ⟨true, true, [], []⟩, [])) :=
  C3_emergency_stop_latch defaultControllerConfig ⟨1920, 1080, 1⟩ ⟨true, true, [], []⟩
    [CEvent.exec [("type", PyVal.str "click"), ("x", PyVal.int 5), ("y", PyVal.int 5)]
      ⟨ConfirmChannel.dialog true, true⟩ 3, CEvent.emergencyKey] rfl (by decide)

/-- Claim C6 (counterexample): `extract_text` already returns the OCR
confidence on the 0–1 scale (0.9 for a single kept word of Tesseract
confidence 90), but `_calculate_confidence` divides it by 100 again, so
with no UI elements and no scene description the overall confidence is
0.009, not the claimed mean 0.9 of the lone computed sub-score. -/
theorem C6_counterexample :
    (extract_text (3/5) [⟨"ok", 90, 0, 0, 10, 10⟩]).confidence = 9/10 ∧
    calculate_confidence (9/10) [] "" = 9/1000 ∧
    overall_confidence_claim (9/10) [] "" = 9/10 ∧
    calculate_confidence (9/10) [] "" ≠ overall_confidence_claim (9/10) [] "" := by
  have h1 : (extract_text (3/5) [⟨"ok", 90, 0, 0, 10, 10⟩]).confidence = 9/10 := by
    unfold extract_text
    rw [List.filterMap_cons,
      if_pos (⟨by decide, by norm_num⟩ : pyStrip "ok" ≠ "" ∧ (3 : ℚ)/5 * 100 < 90)]
    norm_num
  have h2 : calculate_confidence (9/10) [] "" = 9/1000 := by
    unfold calculate_confidence
    norm_num [min_def]
  have h3 : overall_confidence_claim (9/10) [] "" = 9/10 := by
    unfold overall_confidence_claim
    norm_num
  exact ⟨h1, h2, h3, by rw [h2, h3]; norm_num⟩

/-- Every sub-score `_calculate_confidence` collects lies in `[0,1]` when
the inputs are non-negative. -/
theorem code_sub_scores_mem_unit (ocr : ℚ) (ui : List ℚ) (vlm : String)
    (h0 : 0 ≤ ocr) (hui : ∀ c ∈ ui, 0 ≤ c) :
    ∀ x ∈ code_sub_scores ocr ui vlm, 0 ≤ x ∧ x ≤ 1 := by
  intro x hx
  unfold code_sub_scores at hx
  simp only [List.mem_append] at hx
  rcases hx with (hx | hx) | hx
  · by_cases hc : 0 < ocr
    · rw [if_pos hc] at hx
      simp only [List.mem_singleton] at hx
      subst hx
      exact ⟨le_min (div_nonneg h0 (by norm_num)) zero_le_one, min_le_right _ _⟩
    · rw [if_neg hc] at hx
      exact absurd hx (List.not_mem_nil x)
  · by_cases hc : ui ≠ []
    · rw [if_pos hc] at hx
      simp only [List.mem_singleton] at hx
      subst hx
      have hs : 0 ≤ ui.sum := List.sum_nonneg hui
      refine ⟨le_min ?_ zero_le_one, min_le_right _ _⟩
      have hl : (0 : ℚ) ≤ (ui.length : ℚ) := by positivity
      positivity
    · rw [if_neg hc] at hx
      exact absurd hx (List.not_mem_nil x)
  · by_cases hc : vlm ≠ "" ∧ ¬strStarts vlm "Vision analysis" = true
    · rw [if_pos hc] at hx
      simp only [List.mem_singleton] at hx
      subst hx
      norm_num
    · rw [if_neg hc] at hx
      exact absurd hx (List.not_mem_nil x)

/-- Claim C6 (amended): the overall confidence equals the mean of exactly
the computed sub-scores, where the OCR and mean-UI sub-scores are the
respective confidences divided by 100 once more and capped at 1 (not the
confidences themselves), and it always lies in `[0,1]` for non-negative
inputs. -/
theorem C6_amended (ocr : ℚ) (ui : List ℚ) (vlm : String)
    (h0 : 0 ≤ ocr) (hui : ∀ c ∈ ui, 0 ≤ c) :
    calculate_confidence ocr ui vlm =
      (if code_sub_scores ocr ui vlm = [] then 0
       else (code_sub_scores ocr ui vlm).sum / ((code_sub_scores ocr ui vlm).length : ℚ)) ∧
    0 ≤ calculate_confidence ocr ui vlm ∧ calculate_confidence ocr ui vlm ≤ 1 := by
  have heq : calculate_confidence ocr ui vlm =
      (if code_sub_scores ocr ui vlm = [] then 0
       else (code_sub_scores ocr ui vlm).sum / ((code_sub_scores ocr ui vlm).length : ℚ)) := by
    have h3 : ∀ A : List ℚ,
        (if vlm ≠ "" ∧ ¬strStarts vlm "Vision analysis" = true then A ++ [(4 : ℚ)/5]
          else A) =
        A ++ (if vlm ≠ "" ∧ ¬strStarts vlm "Vision analysis" = true then [(4 : ℚ)/5]
          else []) := by
      intro A
      split <;> simp
    have h2 : ∀ (A : List ℚ) (b : ℚ),
        (if ui ≠ [] then A ++ [b] else A) = A ++ (if ui ≠ [] then [b] else []) := by
      intro A b
      split <;> simp
    unfold calculate_confidence code_sub_scores
    dsimp only
    rw [h3, h2, List.append_assoc]
  have hb : 0 ≤ (if code_sub_scores ocr ui vlm = [] then (0 : ℚ)
        else (code_sub_scores ocr ui vlm).sum / ((code_sub_scores ocr ui vlm).length : ℚ)) ∧
      (if code_sub_scores ocr ui vlm = [] then (0 : ℚ)
        else (code_sub_scores ocr ui vlm).sum / ((code_sub_scores ocr ui vlm).length : ℚ)) ≤ 1 := by
    by_cases hempty : code_sub_scores ocr ui vlm = []
    · rw [if_pos hempty]
      norm_num
    · rw [if_neg hempty]
      exact list_mean_mem_unit _ (code_sub_scores_mem_unit ocr ui vlm h0 hui) hempty
  exact ⟨heq, heq ▸ hb.1, heq ▸ hb.2⟩

/-- Claim C6 witness: a concrete perception cycle (OCR 0.9, two UI elements,
a scene description) gets a confidence inside `[0,1]`. -/
theorem C6_witness :
    0 ≤ calculate_confidence (9/10) [1/2, 1] "A desktop with a browser" ∧
    calculate_confidence (9/10) [1/2, 1] "A desktop with a browser" ≤ 1 :=
  ⟨(C6_amended (9/10) [1/2, 1] "A desktop with a browser" (by norm_num)
      (by intro c hc; simp only [List.mem_cons, List.mem_singleton,
        List.not_mem_nil, or_false] at hc; rcases hc with rfl | rfl <;> norm_num)).2.1,
   (C6_amended (9/10) [1/2, 1] "A desktop with a browser" (by norm_num)
      (by intro c hc; simp only [List.mem_cons, List.mem_singleton,
        List.not_mem_nil, or_false] at hc; rcases hc with rfl | rfl <;> norm_num)).2.2⟩

/-- Claim C8: the UI classification of the code equals the claimed
first-match-wins cascade at every input, and for every contour list the
detected elements are sorted by confidence descending, capped at 50, and
each comes from a non-discarded contour (area at least 100) whose
classification gave the element its type and whose normalized area gave its
confidence. -/
theorem C8_classification_and_ranking :
    (∀ area aspect_ratio width height,
      classify_element area aspect_ratio width height =
        classify_element_claim area aspect_ratio width height) ∧
    (∀ regions : List Region, (detect_elements regions).Pairwise confGe ∧
      (detect_elements regions).length ≤ 50 ∧
      ∀ e ∈ detect_elements regions, ∃ r ∈ regions, ¬(r.area < 100) ∧
        classify_element r.area ((r.w : ℚ) / (r.h : ℚ)) r.w r.h = some e.type ∧
        e.confidence = min 1 (r.area / 10000)) := by
  constructor
  · intro a ar w h
    unfold classify_element classify_element_claim
    by_cases h1 : (1000 < a ∧ a < 50000 ∧ 1/5 < ar ∧ ar < 5) ∧
        (20 < w ∧ w < 400 ∧ 15 < h ∧ h < 100)
    · rw [if_pos h1, if_pos (show 1000 < a ∧ a < 50000 ∧ 1/5 < ar ∧ ar < 5 ∧
        20 < w ∧ w < 400 ∧ 15 < h ∧ h < 100 by tauto)]
    · rw [if_neg h1, if_neg (show ¬(1000 < a ∧ a < 50000 ∧ 1/5 < ar ∧ ar < 5 ∧
        20 < w ∧ w < 400 ∧ 15 < h ∧ h < 100) from fun hh => h1 (by tauto))]
      by_cases h2 : (500 < a ∧ a < 100000 ∧ 2 < ar) ∧ h < 50
      · rw [if_pos h2, if_pos (show 500 < a ∧ a < 100000 ∧ 2 < ar ∧ h < 50 by tauto)]
      · rw [if_neg h2, if_neg (show ¬(500 < a ∧ a < 100000 ∧ 2 < ar ∧ h < 50) from
          fun hh => h2 (by tauto))]
  · intro regions
    refine ⟨?_, ?_, ?_⟩
    · exact (pairwise_sortByConfDesc (regions.filterMap mkElement)).sublist
        (List.take_sublist _ _)
    · exact List.length_take_le _ _
    · intro e he
      have h1 : e ∈ sortByConfDesc (regions.filterMap mkElement) :=
        List.take_subset _ _ he
      have h2 : e ∈ regions.filterMap mkElement := mem_of_mem_sortByConfDesc h1
      rcases List.mem_filterMap.mp h2 with ⟨r, hr, hmk⟩
      by_cases harea : r.area < 100
      · rw [mkElement, if_pos harea] at hmk
        exact absurd hmk (by simp)
      · rw [mkElement, if_neg harea] at hmk
        rcases Option.map_eq_some'.mp hmk with ⟨t, hcl, hbuild⟩
        refine ⟨r, hr, harea, ?_, ?_⟩
        · rw [hcl, ← hbuild]
        · rw [← hbuild]

/-- Claim C8 witness: the classification cascade agrees at a concrete
button-shaped region, and a concrete detection run is ranked and capped. -/
theorem C8_witness :
    classify_element 2000 1 100 20 = classify_element_claim 2000 1 100 20 ∧
    (detect_elements [⟨2000, 0, 0, 100, 20⟩]).Pairwise confGe ∧
    (detect_elements [⟨2000, 0, 0, 100, 20⟩]).length ≤ 50 :=
  ⟨C8_classification_and_ranking.1 2000 1 100 20,
   (C8_classification_and_ranking.2 [⟨2000, 0, 0, 100, 20⟩]).1,
   (C8_classification_and_ranking.2 [⟨2000, 0, 0, 100, 20⟩]).2.1⟩

/-- The rule-based fallback only returns the empty list through the final
conjunction-split branch, and only when every split fragment is blank. -/
theorem rule_based_fallback_cases (extractTerm : String → String) (command : String)
    (hand : strContains (apply_typo_fixes (lowerStr command)) " and " = true →
      ((pySplit (apply_typo_fixes (lowerStr command)) " and ").map pyStrip).filter
        (fun c => c ≠ "") ≠ [])
    (hthen : ¬strContains (apply_typo_fixes (lowerStr command)) " and " = true →
      strContains (apply_typo_fixes (lowerStr command)) " then " = true →
      ((pySplit (apply_typo_fixes (lowerStr command)) " then ").map pyStrip).filter
        (fun c => c ≠ "") ≠ []) :
    rule_based_fallback extractTerm command ≠ [] := by
  unfold rule_based_fallback
  dsimp only
  split
  · split
    · next hA => exact hand hA
    · next hA =>
        split
        · next hT => exact hthen hA hT
        · simp
  · next h4 => exact h4

/-- Claim C9 (counterexample): the command consisting of just a conjunction,
`" and "`, defeats every stage — the oracle path fails, no rule pattern
matches, and the final split yields only blank fragments — so the
decomposer returns the EMPTY list, which `execute_user_command` then
rejects. -/
theorem C9_counterexample :
    refactor_user_prompt none none (fun _ => "facebook") " and " = [] := by decide

/-- Claim C9 (amended): the decomposer returns at least one step for every
command except the degenerate ones where no rule pattern matches, the
typo-fixed lowercased command contains `" and "` (or, failing that,
`" then "`), and every fragment of the corresponding split is blank after
stripping; for such commands (e.g. `" and "`) it returns the empty list. -/
theorem C9_amended (primary secondary : Option OracleResponse)
    (extractTerm : String → String) (command : String)
    (hand : strContains (apply_typo_fixes (lowerStr command)) " and " = true →
      ((pySplit (apply_typo_fixes (lowerStr command)) " and ").map pyStrip).filter
        (fun c => c ≠ "") ≠ [])
    (hthen : ¬strContains (apply_typo_fixes (lowerStr command)) " and " = true →
      strContains (apply_typo_fixes (lowerStr command)) " then " = true →
      ((pySplit (apply_typo_fixes (lowerStr command)) " then ").map pyStrip).filter
        (fun c => c ≠ "") ≠ []) :
    refactor_user_prompt primary secondary extractTerm command ≠ [] := by
  unfold refactor_user_prompt
  cases primary with
  | none => exact rule_based_fallback_cases extractTerm command hand hthen
  | some resp =>
    dsimp only
    by_cases h1 : resp.success = true ∧
        good_lines (process_response_lines resp.content) = true
    · rw [if_pos h1]
      exact good_lines_ne_nil h1.2
    · rw [if_neg h1]
      dsimp only
      split
      · cases secondary with
        | none => exact rule_based_fallback_cases extractTerm command hand hthen
        | some r2 =>
          dsimp only
          by_cases hg : r2.success = true ∧
              good_lines (process_response_lines r2.content) = true
          · rw [if_pos hg]
            exact good_lines_ne_nil hg.2
          · rw [if_neg hg]
            exact rule_based_fallback_cases extractTerm command hand hthen
      · exact rule_based_fallback_cases extractTerm command hand hthen

/-- Claim C9 witness: a plain command with no conjunctions and a failed
oracle still yields a non-empty plan (the whole command as one step). -/
theorem C9_witness :
    refactor_user_prompt none none (fun _ => "facebook") "hello" ≠ [] :=
  C9_amended none none (fun _ => "facebook") "hello" (by decide) (by decide)

/-- Claim C2 witness: a well-formed `type` action containing `delete`
requires confirmation. -/
theorem C2_witness :
    (Controller.validate_action defaultControllerConfig
      [("type", PyVal.str "type"), ("text", PyVal.str "please delete it")]).2.2 = true :=
  (C2_amended defaultControllerConfig
    [("type", PyVal.str "type"), ("text", PyVal.str "please delete it")] 1
    (by decide) (by decide) (by decide) (by decide)).mpr
    (Or.inr (Or.inr ⟨"delete", by decide, by decide⟩))
